import Mathlib

/-!
NUClearPort: Darwin platform identities and the camera setting accessor.

A shallow embedding of

* `modules/DarwinPlatform/src/Darwin.h`: the enum `Darwin::ID::ID` and the device
  members declared by `class Darwin`;
* `modules/DarwinCameraReader/src/DarwinCameraSetting.cpp`: `DarwinCameraSetting::get`
  and `DarwinCameraSetting::set`, written over an explicit kernel (the three V4L2
  control ioctls) with explicit state passing and a trace of the requests issued.
-/

namespace Darwin

/-- Enumerators of the C++ enum Darwin::ID::ID, in declaration order (Darwin.h lines 19-44). -/
inductive ID where
  | CM730
  | R_SHOULDER_PITCH
  | L_SHOULDER_PITCH
  | R_SHOULDER_ROLL
  | L_SHOULDER_ROLL
  | R_ELBOW
  | L_ELBOW
  | R_HIP_YAW
  | L_HIP_YAW
  | R_HIP_ROLL
  | L_HIP_ROLL
  | R_HIP_PITCH
  | L_HIP_PITCH
  | R_KNEE
  | L_KNEE
  | R_ANKLE_PITCH
  | L_ANKLE_PITCH
  | R_ANKLE_ROLL
  | L_ANKLE_ROLL
  | HEAD_PAN
  | HEAD_TILT
  | R_FSR
  | L_FSR
  | BROADCAST
  deriving DecidableEq, Repr

/-- The numeric value the enum gives each enumerator (Darwin.h lines 20-43). -/
def ID.value : ID → Nat
  | .CM730 => 200
  | .R_SHOULDER_PITCH => 1
  | .L_SHOULDER_PITCH => 2
  | .R_SHOULDER_ROLL => 3
  | .L_SHOULDER_ROLL => 4
  | .R_ELBOW => 5
  | .L_ELBOW => 6
  | .R_HIP_YAW => 7
  | .L_HIP_YAW => 8
  | .R_HIP_ROLL => 9
  | .L_HIP_ROLL => 10
  | .R_HIP_PITCH => 11
  | .L_HIP_PITCH => 12
  | .R_KNEE => 13
  | .L_KNEE => 14
  | .R_ANKLE_PITCH => 15
  | .L_ANKLE_PITCH => 16
  | .R_ANKLE_ROLL => 17
  | .L_ANKLE_ROLL => 18
  | .HEAD_PAN => 19
  | .HEAD_TILT => 20
  | .R_FSR => 111
  | .L_FSR => 112
  | .BROADCAST => 254

/-- Every enumerator of Darwin::ID::ID, in declaration order. -/
def ID.all : List ID :=
  [.CM730, .R_SHOULDER_PITCH, .L_SHOULDER_PITCH, .R_SHOULDER_ROLL, .L_SHOULDER_ROLL,
   .R_ELBOW, .L_ELBOW, .R_HIP_YAW, .L_HIP_YAW, .R_HIP_ROLL, .L_HIP_ROLL,
   .R_HIP_PITCH, .L_HIP_PITCH, .R_KNEE, .L_KNEE, .R_ANKLE_PITCH, .L_ANKLE_PITCH,
   .R_ANKLE_ROLL, .L_ANKLE_ROLL, .HEAD_PAN, .HEAD_TILT, .R_FSR, .L_FSR, .BROADCAST]

/-- The enumerators that name a physical device: all but BROADCAST. -/
def ID.devices : List ID :=
  ID.all.filter (fun i => decide (i ≠ ID.BROADCAST))

/-- The C++ types of the device members of class Darwin. -/
inductive DeviceClass where
  | CM730
  | MX28
  | FSR
  deriving DecidableEq, Repr

/-- The public device members of class Darwin as (type, name), in declaration order
(Darwin.h lines 70-115). -/
def members : List (DeviceClass × String) :=
  [(.CM730, "m_cm730"),
   (.MX28, "m_rShoulderPitch"),
   (.MX28, "m_lShoulderPitch"),
   (.MX28, "m_rShoulderRoll"),
   (.MX28, "m_lShoulderRoll"),
   (.MX28, "m_rElbow"),
   (.MX28, "m_lElbow"),
   (.MX28, "m_rHipYaw"),
   (.MX28, "m_lHipYaw"),
   (.MX28, "m_rHipRoll"),
   (.MX28, "m_lHipRoll"),
   (.MX28, "m_rHipPitch"),
   (.MX28, "m_lHipPitch"),
   (.MX28, "m_rKnee"),
   (.MX28, "m_lKnee"),
   (.MX28, "m_rAnklePitch"),
   (.MX28, "m_lAnklePitch"),
   (.MX28, "m_rAnkleRoll"),
   (.MX28, "m_lAnkleRoll"),
   (.MX28, "m_headPan"),
   (.MX28, "m_headTilt"),
   (.FSR, "m_rFSR"),
   (.FSR, "m_lFSR")]

/-- Number of declared members of a given C++ device type. -/
def memberCount (c : DeviceClass) : Nat :=
  (members.filter (fun m => decide (m.1 = c))).length

/-- Device enumerators paired with the device members by declaration order: the enum lists the
devices in the order in which class Darwin declares their members (CM730 with m_cm730,
R_SHOULDER_PITCH with m_rShoulderPitch, ..., L_FSR with m_lFSR). -/
def ID.paired : List (ID × DeviceClass × String) :=
  ID.devices.zip members

/-- The enumerators whose device member has the given C++ type. -/
def ID.ofClass (c : DeviceClass) : List ID :=
  (ID.paired.filter (fun p => decide (p.2.1 = c))).map (fun p => p.1)

end Darwin

namespace modules

/-- Constants of linux/videodev2.h that DarwinCameraSetting.cpp names. The header belongs to the
kernel, not to the repository, so their values are a parameter of the embedding. -/
structure Videodev2 where
  V4L2_CTRL_FLAG_DISABLED : Nat
  V4L2_CTRL_TYPE_BOOLEAN : Nat
  V4L2_CTRL_TYPE_INTEGER : Nat
  V4L2_CTRL_TYPE_MENU : Nat

/-- The fields of struct v4l2_queryctrl that the accessor writes or reads. -/
structure v4l2_queryctrl where
  id : Nat
  type : Nat
  flags : Nat
  minimum : Int
  maximum : Int
  deriving DecidableEq, Repr

/-- Struct v4l2_control: a control id and its value. -/
structure v4l2_control where
  id : Nat
  value : Int
  deriving DecidableEq, Repr

/-- The ioctl requests the accessor issues, with the file descriptor and the fields of the
argument struct that the caller has set. -/
inductive Request where
  | VIDIOC_QUERYCTRL (fd : Int) (id : Nat)
  | VIDIOC_G_CTRL (fd : Int) (id : Nat)
  | VIDIOC_S_CTRL (fd : Int) (id : Nat) (value : Int)
  deriving DecidableEq, Repr

/-- The behaviour of the kernel behind ioctl, over an arbitrary device state. Each call yields
the return code of ioctl, the struct as the kernel leaves it, and the next device state. -/
structure Kernel (σ : Type) where
  queryctrl : σ → Int → Nat → Int × v4l2_queryctrl × σ
  g_ctrl : σ → Int → Nat → Int × v4l2_control × σ
  s_ctrl : σ → Int → v4l2_control → Int × σ

/-- The device state together with the requests issued so far, oldest first. -/
structure World (σ : Type) where
  device : σ
  trace : List Request

/-- The call ioctl(fd, VIDIOC_QUERYCTRL, &queryctrl) with queryctrl.id = id. -/
def ioctl_QUERYCTRL {σ : Type} (K : Kernel σ) (w : World σ) (fd : Int) (id : Nat) :
    Int × v4l2_queryctrl × World σ :=
  let r := K.queryctrl w.device fd id
  (r.1, r.2.1, { device := r.2.2, trace := w.trace ++ [Request.VIDIOC_QUERYCTRL fd id] })

/-- The call ioctl(fd, VIDIOC_G_CTRL, &control_s) with control_s.id = id. -/
def ioctl_G_CTRL {σ : Type} (K : Kernel σ) (w : World σ) (fd : Int) (id : Nat) :
    Int × v4l2_control × World σ :=
  let r := K.g_ctrl w.device fd id
  (r.1, r.2.1, { device := r.2.2, trace := w.trace ++ [Request.VIDIOC_G_CTRL fd id] })

/-- The call ioctl(fd, VIDIOC_S_CTRL, &control_s). -/
def ioctl_S_CTRL {σ : Type} (K : Kernel σ) (w : World σ) (fd : Int) (control_s : v4l2_control) :
    Int × World σ :=
  let r := K.s_ctrl w.device fd control_s
  (r.1, { device := r.2,
          trace := w.trace ++ [Request.VIDIOC_S_CTRL fd control_s.id control_s.value] })

/-- The data members of class DarwinCameraSetting, set by its constructor. -/
structure DarwinCameraSetting where
  fd : Int
  id : Nat
  deriving DecidableEq, Repr

/-- DarwinCameraSetting::get (DarwinCameraSetting.cpp lines 31-54). A thrown
std::runtime_error is Except.error carrying its message. -/
def DarwinCameraSetting.get {σ : Type} (H : Videodev2) (K : Kernel σ)
    (self : DarwinCameraSetting) (w : World σ) : Except String Int × World σ :=
  -- Check if we can access the value
  let r := ioctl_QUERYCTRL K w self.fd self.id
  let queryctrl := r.2.1
  let w := r.2.2
  if r.1 < 0 then
    (.error "There was an error while attempting to get the status of this camera value", w)
  else if queryctrl.flags &&& H.V4L2_CTRL_FLAG_DISABLED ≠ 0 then
    (.error "Requested camera value is not available", w)
  else if queryctrl.type ≠ H.V4L2_CTRL_TYPE_BOOLEAN ∧ queryctrl.type ≠ H.V4L2_CTRL_TYPE_INTEGER
      ∧ queryctrl.type ≠ H.V4L2_CTRL_TYPE_MENU then
    (.error "Requested camera value is not supported", w)
  else
    -- Try to get the value
    let g := ioctl_G_CTRL K w self.fd self.id
    let control_s := g.2.1
    let w := g.2.2
    if g.1 < 0 then
      (.error "There was an error while trying to get the current value", w)
    else
      (.ok control_s.value, w)

/-- DarwinCameraSetting::set (DarwinCameraSetting.cpp lines 56-89). -/
def DarwinCameraSetting.set {σ : Type} (H : Videodev2) (K : Kernel σ)
    (self : DarwinCameraSetting) (value : Int) (w : World σ) : Bool × World σ :=
  -- Check if we can access the value
  let r := ioctl_QUERYCTRL K w self.fd self.id
  let queryctrl := r.2.1
  let w := r.2.2
  if r.1 < 0 then
    (false, w)
  else if queryctrl.flags &&& H.V4L2_CTRL_FLAG_DISABLED ≠ 0 then
    (false, w)
  else if queryctrl.type ≠ H.V4L2_CTRL_TYPE_BOOLEAN ∧ queryctrl.type ≠ H.V4L2_CTRL_TYPE_INTEGER
      ∧ queryctrl.type ≠ H.V4L2_CTRL_TYPE_MENU then
    (false, w)
  else
    -- Shape the value if it is above or below our limits
    let value := if value < queryctrl.minimum then queryctrl.minimum else value
    let value := if value > queryctrl.maximum then queryctrl.maximum else value
    -- Attempt to write the value
    let s := ioctl_S_CTRL K w self.fd { id := self.id, value := value }
    if s.1 < 0 then
      (false, s.2)
    else
      -- We succeeded
      (true, s.2)

/-- The value of the local variable value of DarwinCameraSetting::set after its two shaping
statements: the lower bound is applied first, the upper bound second. -/
def shaped (value minimum maximum : Int) : Int :=
  if (if value < minimum then minimum else value) > maximum then maximum
  else (if value < minimum then minimum else value)

/-- The availability test fails: the query fails, the control is disabled, or its type is none
of BOOLEAN, INTEGER, MENU. -/
def Unavailable (H : Videodev2) (rc : Int) (q : v4l2_queryctrl) : Prop :=
  rc < 0 ∨ q.flags &&& H.V4L2_CTRL_FLAG_DISABLED ≠ 0 ∨
    (q.type ≠ H.V4L2_CTRL_TYPE_BOOLEAN ∧ q.type ≠ H.V4L2_CTRL_TYPE_INTEGER
      ∧ q.type ≠ H.V4L2_CTRL_TYPE_MENU)

/-- The values linux/videodev2.h gives the four constants. -/
def linux : Videodev2 :=
  { V4L2_CTRL_FLAG_DISABLED := 1
    V4L2_CTRL_TYPE_BOOLEAN := 2
    V4L2_CTRL_TYPE_INTEGER := 1
    V4L2_CTRL_TYPE_MENU := 3 }

/-- A concrete kernel for instantiating the theorems: the device state is the current value of
the one control; every query answers rcQuery and the struct q, a read answers rcGet and the
current value, a write answers rcSet and stores the value when rcSet is not negative. -/
def fixedCamera (rcQuery : Int) (q : v4l2_queryctrl) (rcGet rcSet : Int) : Kernel Int :=
  { queryctrl := fun s _ id => (rcQuery, { q with id := id }, s)
    g_ctrl := fun s _ id => (rcGet, { id := id, value := s }, s)
    s_ctrl := fun s _ c => (rcSet, if rcSet < 0 then s else c.value) }

end modules

namespace Darwin

/-- Modelled from the spec: the error taxonomy of section 7 for bus operations (I/O error and
protocol error); Darwin.cpp and the packet code are not among the sources. -/
inductive BusError where
  | ioError
  | protocolError
  deriving DecidableEq, Repr

/-- Modelled from the spec: the configuration constants of the wire format (section 6), which the
spec leaves to the device family: the two fixed header bytes and the PING instruction code. -/
structure Wire where
  header0 : Nat
  header1 : Nat
  PING : Nat

/-- Modelled from the spec: the Transport of section 4.1 over an arbitrary line state. A write
either is accepted or fails; a read yields the bytes that arrived within the timeout. -/
structure Transport (σ : Type) where
  write : σ → List Nat → Bool × σ
  read : σ → Nat → Nat → List Nat × σ

/-- Modelled from the spec: Transport.write, failing with an I/O error when the bytes are not
accepted (section 7). -/
def Transport.send {σ : Type} (T : Transport σ) (s : σ) (bytes : List Nat) :
    Except BusError Unit × σ :=
  let r := T.write s bytes
  if r.1 then (.ok (), r.2) else (.error .ioError, r.2)

/-- Modelled from the spec: Transport.read(maxLength, timeout), which fails with an I/O error
when the read times out with zero bytes and otherwise returns the bytes received, a partial
read included (section 4.1). -/
def Transport.receive {σ : Type} (T : Transport σ) (s : σ) (maxLength timeout : Nat) :
    Except BusError (List Nat) × σ :=
  let r := T.read s maxLength timeout
  if r.1 = [] then (.error .ioError, r.2) else (.ok r.1, r.2)

/-- Modelled from the spec: the checksum of section 3, the bitwise complement of the low byte of
the sum of the bytes given. -/
def checksum (body : List Nat) : Nat :=
  255 - body.sum % 256

/-- Modelled from the spec: PacketCodec.encodeInstruction of section 4.2: two header bytes, id,
length (parameter count + 2), instruction, the parameters, checksum. -/
def encodeInstruction (W : Wire) (id instruction : Nat) (params : List Nat) : List Nat :=
  let length := params.length + 2
  [W.header0, W.header1, id, length, instruction] ++ params
    ++ [checksum ([id, length, instruction] ++ params)]

/-- Modelled from the spec: a decoded status packet (section 4.2). -/
structure Status where
  id : Nat
  length : Nat
  errorFlags : Nat
  params : List Nat
  deriving DecidableEq, Repr

/-- Modelled from the spec: PacketCodec.decodeStatus of section 4.2. It rejects a packet whose
header is absent, whose declared length differs from the number of bytes that follow the length
byte, or whose checksum differs from the one recomputed over id, length, error flags and
parameters. -/
def decodeStatus (W : Wire) (bytes : List Nat) : Except BusError Status :=
  match bytes with
  | h0 :: h1 :: id :: length :: errorFlags :: rest =>
    if h0 ≠ W.header0 ∨ h1 ≠ W.header1 then .error .protocolError
    else if rest.length + 1 ≠ length then .error .protocolError
    else
      match rest.getLast? with
      | none => .error .protocolError
      | some received =>
        let params := rest.dropLast
        if checksum ([id, length, errorFlags] ++ params) ≠ received then .error .protocolError
        else .ok { id := id, length := length, errorFlags := errorFlags, params := params }
  | _ => .error .protocolError

/-- Modelled from the spec: one step of the selfTest sweep of section 4.5: encode and send a PING
to the device, then attempt to read a status response with a bounded timeout. An I/O error or a
protocol error is absorbed: the device is recorded as unreachable. -/
def ping {σ : Type} (T : Transport σ) (W : Wire) (maxLength timeout : Nat) (s : σ) (id : Nat) :
    Bool × σ :=
  let sent := T.send s (encodeInstruction W id W.PING [])
  match sent.1 with
  | .error _ => (false, sent.2)
  | .ok _ =>
    let got := T.receive sent.2 maxLength timeout
    match got.1 with
    | .error _ => (false, got.2)
    | .ok bytes =>
      match decodeStatus W bytes with
      | .error _ => (false, got.2)
      | .ok _ => (true, got.2)

/-- Modelled from the spec: Darwin::selfTest, declared in Darwin.h line 130 and defined in
Darwin.cpp, which is not among the sources. Section 4.5: every DeviceId of the registry is
pinged in registry enumeration order and recorded with its reachability. -/
def selfTest {σ : Type} (T : Transport σ) (W : Wire) (maxLength timeout : Nat) :
    List Nat → σ → List (Nat × Bool) × σ
  | [], s => ([], s)
  | id :: rest, s =>
    let r := ping T W maxLength timeout s id
    let rs := selfTest T W maxLength timeout rest r.2
    ((id, r.1) :: rs.1, rs.2)

/-- The wire constants of the Dynamixel family, for instantiating the theorems. -/
def dynamixel : Wire :=
  { header0 := 255, header1 := 255, PING := 1 }

/-- A concrete line for instantiating the theorems: the state is the id of the last instruction
written; every write is accepted; a read answers a well-formed status packet with no error flags
when that id is in the list alive, and nothing otherwise. -/
def line (alive : List Nat) : Transport Nat :=
  { write := fun s bytes => (true, (bytes.get? 2).getD s)
    read := fun s _ _ =>
      (if s ∈ alive then [255, 255, s, 2, 0, checksum [s, 2, 0]] else [], s) }

/-- A concrete line for instantiating the theorems: as the line above with every device alive,
but the devices in the list garbled answer with a wrong checksum byte. -/
def garbledLine (garbled : List Nat) : Transport Nat :=
  { write := fun s bytes => (true, (bytes.get? 2).getD s)
    read := fun s _ _ =>
      ([255, 255, s, 2, 0, if s ∈ garbled then checksum [s, 2, 0] + 1 else checksum [s, 2, 0]],
        s) }

end Darwin

/-! Theorems about Darwin.h. -/

namespace Darwin

/-- C1: the identities of Darwin::ID are unique: two different enumerators have different
values, every enumerator other than BROADCAST has a value in [0,253], and so no device
enumerator has the broadcast value 254. -/
theorem ID.value_unique :
    (∀ a b : ID, a ≠ b → a.value ≠ b.value) ∧
    (∀ a : ID, a ≠ ID.BROADCAST → 0 ≤ a.value ∧ a.value ≤ 253) ∧
    (∀ a : ID, a ≠ ID.BROADCAST → a.value ≠ ID.BROADCAST.value) ∧
    ID.BROADCAST.value = 254 := by
  refine ⟨?_, ?_, ?_, rfl⟩
  · intro a b
    cases a <;> cases b <;> decide
  · intro a
    cases a <;> decide
  · intro a
    cases a <;> decide

/-- Instance of C1 at CM730 and HEAD_PAN. -/
theorem ID.value_unique_witness :
    ID.CM730 ≠ ID.HEAD_PAN ∧ ID.CM730.value ≠ ID.HEAD_PAN.value :=
  ⟨by decide, ID.value_unique.1 ID.CM730 ID.HEAD_PAN (by decide)⟩

/-- C2: the identity table has the wire values: CM730 is 200, BROADCAST is 254, the twenty
enumerators of the MX28 members are exactly 1..20 in order, the two of the FSR members are 111
and 112, and every enumerator other than CM730 and BROADCAST lies in 1..112. -/
theorem ID.value_table :
    ID.CM730.value = 200 ∧ ID.BROADCAST.value = 254 ∧
    (ID.ofClass DeviceClass.CM730) = [ID.CM730] ∧
    (ID.ofClass DeviceClass.MX28).map ID.value = List.range' 1 20 ∧
    (ID.ofClass DeviceClass.FSR) = [ID.R_FSR, ID.L_FSR] ∧
    (ID.ofClass DeviceClass.FSR).map ID.value = [111, 112] ∧
    (∀ a : ID, a ≠ ID.CM730 → a ≠ ID.BROADCAST → 1 ≤ a.value ∧ a.value ≤ 112) ∧
    (∀ a : ID, a ≠ ID.CM730 → a ≠ ID.BROADCAST →
      a ∈ ID.ofClass DeviceClass.MX28 ∨ a ∈ ID.ofClass DeviceClass.FSR) := by
  refine ⟨rfl, rfl, by decide, by decide, by decide, by decide, ?_, ?_⟩
  · intro a
    cases a <;> decide
  · intro a
    cases a <;> decide

/-- Instance of C2 at R_FSR. -/
theorem ID.value_table_witness :
    ID.R_FSR ≠ ID.CM730 ∧ ID.R_FSR ≠ ID.BROADCAST ∧
      1 ≤ ID.R_FSR.value ∧ ID.R_FSR.value ≤ 112 :=
  ⟨by decide, by decide, ID.value_table.2.2.2.2.2.2.1 ID.R_FSR (by decide) (by decide)⟩

/-- C6: class Darwin declares 23 device members: exactly one CM730, exactly twenty MX28 and
exactly two FSR, all with different names; Darwin::ID has exactly 23 enumerators other than
BROADCAST, pairwise different in value, so one for each declared device member. -/
theorem members_and_identities :
    members.length = 23 ∧
    memberCount DeviceClass.CM730 = 1 ∧
    memberCount DeviceClass.MX28 = 20 ∧
    memberCount DeviceClass.FSR = 2 ∧
    (members.map (fun m => m.2)).Nodup ∧
    (∀ a : ID, a ∈ ID.devices ↔ a ≠ ID.BROADCAST) ∧
    ID.devices.Nodup ∧
    (ID.devices.map ID.value).Nodup ∧
    ID.devices.length = 23 ∧
    ID.devices.length = members.length ∧
    ID.paired.map (fun p => p.1) = ID.devices ∧
    ID.paired.map (fun p => p.2) = members := by
  refine ⟨rfl, by decide, by decide, by decide, by decide, ?_, by decide, by decide,
    by decide, by decide, by decide, by decide⟩
  intro a
  cases a <;> decide

theorem selfTest_ids {σ : Type} (T : Transport σ) (W : Wire) (maxLength timeout : Nat)
    (registry : List Nat) (s : σ) :
    (selfTest T W maxLength timeout registry s).1.map Prod.fst = registry := by
  induction registry generalizing s with
  | nil => rfl
  | cons id rest ih =>
    simp only [selfTest, List.map_cons]
    rw [ih]

theorem ping_false_iff {σ : Type} (T : Transport σ) (W : Wire) (maxLength timeout : Nat)
    (s : σ) (id : Nat) :
    (ping T W maxLength timeout s id).1 = false ↔
      ((T.write s (encodeInstruction W id W.PING [])).1 = false ∨
       (T.read (T.write s (encodeInstruction W id W.PING [])).2 maxLength timeout).1 = [] ∨
       ∃ e, decodeStatus W
         (T.read (T.write s (encodeInstruction W id W.PING [])).2 maxLength timeout).1
           = Except.error e) := by
  unfold ping Transport.send Transport.receive
  by_cases hw : (T.write s (encodeInstruction W id W.PING [])).1 = true
  · by_cases hr :
        (T.read (T.write s (encodeInstruction W id W.PING [])).2 maxLength timeout).1 = []
    · simp [hw, hr]
    · cases hd : decodeStatus W
          (T.read (T.write s (encodeInstruction W id W.PING [])).2 maxLength timeout).1 with
      | error e => simp [hw, hr, hd]
      | ok st => simp [hw, hr, hd]
  · simp [hw]

theorem decodeStatus_short (W : Wire) (bytes : List Nat) (h : bytes.length ≤ 5) :
    ∃ e, decodeStatus W bytes = Except.error e := by
  rcases bytes with _ | ⟨a, _ | ⟨b, _ | ⟨c, _ | ⟨d, _ | ⟨f, _ | ⟨g, r⟩⟩⟩⟩⟩⟩
  · exact ⟨_, rfl⟩
  · exact ⟨_, rfl⟩
  · exact ⟨_, rfl⟩
  · exact ⟨_, rfl⟩
  · exact ⟨_, rfl⟩
  · by_cases hh : a ≠ W.header0 ∨ b ≠ W.header1
    · exact ⟨BusError.protocolError, by simp [decodeStatus, hh]⟩
    · by_cases hl : 0 + 1 ≠ d
      · exact ⟨BusError.protocolError, by simp [decodeStatus, hh, hl]⟩
      · exact ⟨BusError.protocolError, by simp [decodeStatus, hh, hl]⟩
  · simp at h

theorem decodeStatus_frame (W : Wire) (h0 h1 id length errorFlags received : Nat)
    (params : List Nat) :
    decodeStatus W (h0 :: h1 :: id :: length :: errorFlags :: (params ++ [received]))
      = if h0 = W.header0 ∧ h1 = W.header1 ∧ params.length + 2 = length ∧
            checksum ([id, length, errorFlags] ++ params) = received then
          Except.ok { id := id, length := length, errorFlags := errorFlags, params := params }
        else Except.error BusError.protocolError := by
  unfold decodeStatus
  simp only [List.length_append, List.length_singleton, List.getLast?_append,
    List.getLast?_singleton, List.dropLast_concat]
  by_cases a : h0 = W.header0
  · by_cases b : h1 = W.header1
    · by_cases c : params.length + 2 = length
      · by_cases d : checksum ([id, length, errorFlags] ++ params) = received
        · simp [a, b, c, d]
        · simp [a, b, c, d]
      · simp [a, b, c]
    · simp [a, b]
  · simp [a]

/-- C7: selfTest over a registry of N device ids returns exactly N pairs whose ids are the
registry in enumeration order, whatever the line does. Each device is recorded with the outcome
of its own ping and the sweep goes on with the remaining devices; the outcome is unreachable
exactly when the device fails to answer: the instruction is not accepted, no byte arrives within
the timeout, or the response is rejected by the codec. The codec rejects every response of at
most five bytes and every longer one with a wrong header byte, a wrong length byte or a wrong
checksum byte. -/
theorem selfTest_complete {σ : Type} (T : Transport σ) (W : Wire) (maxLength timeout : Nat)
    (registry : List Nat) (s : σ) :
    (selfTest T W maxLength timeout registry s).1.map Prod.fst = registry ∧
    (selfTest T W maxLength timeout registry s).1.length = registry.length ∧
    (∀ (id : Nat) (rest : List Nat) (s0 : σ),
      (selfTest T W maxLength timeout (id :: rest) s0).1
        = (id, (ping T W maxLength timeout s0 id).1) :: (selfTest T W maxLength timeout rest
            (ping T W maxLength timeout s0 id).2).1) ∧
    (∀ (id : Nat) (s0 : σ),
      (ping T W maxLength timeout s0 id).1 = false ↔
        ((T.write s0 (encodeInstruction W id W.PING [])).1 = false ∨
         (T.read (T.write s0 (encodeInstruction W id W.PING [])).2 maxLength timeout).1 = [] ∨
         ∃ e, decodeStatus W
           (T.read (T.write s0 (encodeInstruction W id W.PING [])).2 maxLength timeout).1
             = Except.error e)) ∧
    (∀ bytes : List Nat, bytes.length ≤ 5 → ∃ e, decodeStatus W bytes = Except.error e) ∧
    (∀ (h0 h1 id length errorFlags received : Nat) (params : List Nat),
      (h0 ≠ W.header0 ∨ h1 ≠ W.header1 ∨ params.length + 2 ≠ length ∨
        checksum ([id, length, errorFlags] ++ params) ≠ received) →
      ∃ e, decodeStatus W (h0 :: h1 :: id :: length :: errorFlags :: (params ++ [received]))
        = Except.error e) := by
  refine ⟨selfTest_ids T W maxLength timeout registry s, ?_, ?_, ?_, ?_, ?_⟩
  · have h := congrArg List.length (selfTest_ids T W maxLength timeout registry s)
    simpa using h
  · intro id rest s0
    simp only [selfTest]
  · intro id s0
    exact ping_false_iff T W maxLength timeout s0 id
  · intro bytes h
    exact decodeStatus_short W bytes h
  · intro h0 h1 id length errorFlags received params h
    rw [decodeStatus_frame]
    have hn : ¬ (h0 = W.header0 ∧ h1 = W.header1 ∧ params.length + 2 = length ∧
        checksum ([id, length, errorFlags] ++ params) = received) := by
      rintro ⟨a, b, c, d⟩
      rcases h with h | h | h | h
      · exact h a
      · exact h b
      · exact h c
      · exact h d
    rw [if_neg hn]
    exact ⟨_, rfl⟩

/-- Instance of C7: the scenario of the spec, a registry of the bus-master 200, which answers,
and the actuator 5, which times out; and the same registry on a line where the actuator 5
answers with a wrong checksum byte. In both the actuator is recorded as unreachable. -/
theorem selfTest_complete_witness :
    (selfTest (line [200]) dynamixel 6 10 [200, 5] 0).1.map Prod.fst = [200, 5] ∧
    (selfTest (line [200]) dynamixel 6 10 [200, 5] 0).1.length = 2 ∧
    (ping (line [200]) dynamixel 6 10 200 5).1 = false ∧
    (ping (garbledLine [5]) dynamixel 6 10 200 5).1 = false ∧
    (∃ e, decodeStatus dynamixel [255, 255, 5, 2, 0, 249] = Except.error e) ∧
    (selfTest (line [200]) dynamixel 6 10 [200, 5] 0).1 = [(200, true), (5, false)] ∧
    (selfTest (garbledLine [5]) dynamixel 6 10 [200, 5] 0).1 = [(200, true), (5, false)] :=
  ⟨(selfTest_complete (line [200]) dynamixel 6 10 [200, 5] 0).1,
   (selfTest_complete (line [200]) dynamixel 6 10 [200, 5] 0).2.1,
   ((selfTest_complete (line [200]) dynamixel 6 10 [200, 5] 0).2.2.2.1 5 200).mpr
     (Or.inr (Or.inl (by decide))),
   ((selfTest_complete (garbledLine [5]) dynamixel 6 10 [200, 5] 0).2.2.2.1 5 200).mpr
     (Or.inr (Or.inr ⟨BusError.protocolError, rfl⟩)),
   (selfTest_complete (line [200]) dynamixel 6 10 [200, 5] 0).2.2.2.2.2
     255 255 5 2 0 249 [] (Or.inr (Or.inr (Or.inr (by decide)))),
   by decide, by decide⟩

end Darwin

/-! Theorems about DarwinCameraSetting.cpp. -/

namespace modules

theorem set_eq_of_unavailable {σ : Type} (H : Videodev2) (K : Kernel σ)
    (c : DarwinCameraSetting)
    (v : Int) (w : World σ) (rc : Int) (q : v4l2_queryctrl) (d : σ)
    (hq : K.queryctrl w.device c.fd c.id = (rc, q, d)) (hfail : Unavailable H rc q) :
    c.set H K v w
      = (false, { device := d, trace := w.trace ++ [Request.VIDIOC_QUERYCTRL c.fd c.id] }) := by
  unfold DarwinCameraSetting.set ioctl_QUERYCTRL
  simp only [hq]
  rcases hfail with h | h | h
  · simp [h]
  · by_cases h0 : rc < 0
    · simp [h0]
    · simp [h0, h]
  · by_cases h0 : rc < 0
    · simp [h0]
    · by_cases h1 : q.flags &&& H.V4L2_CTRL_FLAG_DISABLED = 0
      · simp [h0, h1, h]
      · simp [h0, h1]

theorem set_eq_of_available {σ : Type} (H : Videodev2) (K : Kernel σ)
    (c : DarwinCameraSetting)
    (v : Int) (w : World σ) (rc : Int) (q : v4l2_queryctrl) (d : σ)
    (hq : K.queryctrl w.device c.fd c.id = (rc, q, d)) (hok : ¬ Unavailable H rc q) :
    c.set H K v w
      = (decide (¬ (K.s_ctrl d c.fd
            { id := c.id, value := shaped v q.minimum q.maximum }).1 < 0),
         { device := (K.s_ctrl d c.fd
              { id := c.id, value := shaped v q.minimum q.maximum }).2,
           trace := w.trace ++ [Request.VIDIOC_QUERYCTRL c.fd c.id,
              Request.VIDIOC_S_CTRL c.fd c.id (shaped v q.minimum q.maximum)] }) := by
  unfold Unavailable at hok
  push_neg at hok
  obtain ⟨h0, h1, h2⟩ := hok
  have h0 : ¬ rc < 0 := not_lt.mpr h0
  have h2 : ¬ (q.type ≠ H.V4L2_CTRL_TYPE_BOOLEAN ∧ q.type ≠ H.V4L2_CTRL_TYPE_INTEGER
      ∧ q.type ≠ H.V4L2_CTRL_TYPE_MENU) := by
    intro ⟨a, b, c⟩; exact c (h2 a b)
  unfold DarwinCameraSetting.set ioctl_QUERYCTRL ioctl_S_CTRL shaped
  simp only [hq, if_neg h0, h1, if_neg h2, ne_eq, not_true_eq_false, if_false]
  by_cases hs : (K.s_ctrl d c.fd
      { id := c.id, value := if (if v < q.minimum then q.minimum else v) > q.maximum
          then q.maximum else (if v < q.minimum then q.minimum else v) }).1 < 0
  · simp [hs]
  · simp [hs]


theorem get_eq_of_unavailable {σ : Type} (H : Videodev2) (K : Kernel σ)
    (c : DarwinCameraSetting)
    (w : World σ) (rc : Int) (q : v4l2_queryctrl) (d : σ)
    (hq : K.queryctrl w.device c.fd c.id = (rc, q, d)) (hfail : Unavailable H rc q) :
    (∃ msg, (c.get H K w).1 = Except.error msg) ∧
      (c.get H K w).2
        = { device := d, trace := w.trace ++ [Request.VIDIOC_QUERYCTRL c.fd c.id] } := by
  unfold DarwinCameraSetting.get ioctl_QUERYCTRL
  simp only [hq]
  rcases hfail with h | h | h
  · simp [h]
  · by_cases h0 : rc < 0
    · simp [h0]
    · simp [h0, h]
  · by_cases h0 : rc < 0
    · simp [h0]
    · by_cases h1 : q.flags &&& H.V4L2_CTRL_FLAG_DISABLED = 0
      · simp [h0, h1, h]
      · simp [h0, h1]

theorem get_eq_of_available {σ : Type} (H : Videodev2) (K : Kernel σ)
    (c : DarwinCameraSetting)
    (w : World σ) (rc : Int) (q : v4l2_queryctrl) (d : σ)
    (hq : K.queryctrl w.device c.fd c.id = (rc, q, d)) (hok : ¬ Unavailable H rc q) :
    c.get H K w
      = (if (K.g_ctrl d c.fd c.id).1 < 0 then
           Except.error "There was an error while trying to get the current value"
         else Except.ok (K.g_ctrl d c.fd c.id).2.1.value,
         { device := (K.g_ctrl d c.fd c.id).2.2,
           trace := w.trace ++ [Request.VIDIOC_QUERYCTRL c.fd c.id,
              Request.VIDIOC_G_CTRL c.fd c.id] }) := by
  unfold Unavailable at hok
  push_neg at hok
  obtain ⟨h0, h1, h2⟩ := hok
  have h0 : ¬ rc < 0 := not_lt.mpr h0
  have h2 : ¬ (q.type ≠ H.V4L2_CTRL_TYPE_BOOLEAN ∧ q.type ≠ H.V4L2_CTRL_TYPE_INTEGER
      ∧ q.type ≠ H.V4L2_CTRL_TYPE_MENU) := by
    intro ⟨a, b, c⟩; exact c (h2 a b)
  unfold DarwinCameraSetting.get ioctl_QUERYCTRL ioctl_G_CTRL
  simp only [hq, if_neg h0, h1, if_neg h2, ne_eq, not_true_eq_false, if_false]
  by_cases hs : (K.g_ctrl d c.fd c.id).1 < 0
  · simp [hs]
  · simp [hs]

theorem shaped_le_maximum (v lo hi : Int) : shaped v lo hi ≤ hi := by
  unfold shaped
  split_ifs <;> omega

theorem shaped_of_le (v lo hi : Int) (h : lo ≤ hi) :
    shaped v lo hi = if v < lo then lo else if v > hi then hi else v := by
  unfold shaped
  split_ifs <;> omega

theorem trace_ne_of_append (t : List Request) (a b : Request) : t ++ [a, b] ≠ t ++ [a] := by
  intro h
  have := congrArg List.length h
  simp at this

/-- C3: when set reaches the write step (the query succeeded, the control is enabled and of a
supported type) and the reported range has minimum <= maximum, the one write request carries
minimum if v < minimum, maximum if v > maximum and v otherwise; that value lies in
[minimum, maximum], and an in-range v is written unchanged. -/
theorem set_clamps_before_write {σ : Type} (H : Videodev2) (K : Kernel σ)
    (c : DarwinCameraSetting)
    (v : Int) (w : World σ) (rc : Int) (q : v4l2_queryctrl) (d : σ)
    (hq : K.queryctrl w.device c.fd c.id = (rc, q, d))
    (hrc : ¬ rc < 0) (hen : q.flags &&& H.V4L2_CTRL_FLAG_DISABLED = 0)
    (hty : q.type = H.V4L2_CTRL_TYPE_BOOLEAN ∨ q.type = H.V4L2_CTRL_TYPE_INTEGER
      ∨ q.type = H.V4L2_CTRL_TYPE_MENU)
    (hrange : q.minimum ≤ q.maximum) :
    ∃ written : Int,
      written = (if v < q.minimum then q.minimum else if v > q.maximum then q.maximum else v) ∧
      (c.set H K v w).2.trace
        = w.trace ++ [Request.VIDIOC_QUERYCTRL c.fd c.id,
            Request.VIDIOC_S_CTRL c.fd c.id written] ∧
      (c.set H K v w).2.device = (K.s_ctrl d c.fd { id := c.id, value := written }).2 ∧
      q.minimum ≤ written ∧ written ≤ q.maximum ∧
      (q.minimum ≤ v → v ≤ q.maximum → written = v) := by
  have hok : ¬ Unavailable H rc q := by
    rintro (h | h | ⟨a, b, e⟩)
    · exact hrc h
    · exact h hen
    · rcases hty with t | t | t
      · exact a t
      · exact b t
      · exact e t
  refine ⟨shaped v q.minimum q.maximum, shaped_of_le v _ _ hrange, ?_, ?_, ?_, ?_, ?_⟩
  · rw [set_eq_of_available H K c v w rc q d hq hok]
  · rw [set_eq_of_available H K c v w rc q d hq hok]
  · rw [shaped_of_le v _ _ hrange]; split_ifs <;> omega
  · exact shaped_le_maximum _ _ _
  · intro h1 h2
    rw [shaped_of_le v _ _ hrange]; split_ifs <;> omega

/-- C4: set returns true exactly when the control query succeeds, the control is not flagged
disabled, its type is BOOLEAN, INTEGER or MENU, and the write of the shaped value succeeds; in
every other case it returns false. The result is a plain boolean: no path raises an error. -/
theorem set_true_iff {σ : Type} (H : Videodev2) (K : Kernel σ)
    (c : DarwinCameraSetting)
    (v : Int) (w : World σ) (rc : Int) (q : v4l2_queryctrl) (d : σ)
    (hq : K.queryctrl w.device c.fd c.id = (rc, q, d)) :
    ((c.set H K v w).1 = true ↔
      (¬ rc < 0 ∧ q.flags &&& H.V4L2_CTRL_FLAG_DISABLED = 0 ∧
        (q.type = H.V4L2_CTRL_TYPE_BOOLEAN ∨ q.type = H.V4L2_CTRL_TYPE_INTEGER
          ∨ q.type = H.V4L2_CTRL_TYPE_MENU) ∧
        ¬ (K.s_ctrl d c.fd
            { id := c.id,
              value := if (if v < q.minimum then q.minimum else v) > q.maximum then q.maximum
                       else (if v < q.minimum then q.minimum else v) }).1 < 0)) ∧
    ((c.set H K v w).1 = false ↔
      ¬ (¬ rc < 0 ∧ q.flags &&& H.V4L2_CTRL_FLAG_DISABLED = 0 ∧
        (q.type = H.V4L2_CTRL_TYPE_BOOLEAN ∨ q.type = H.V4L2_CTRL_TYPE_INTEGER
          ∨ q.type = H.V4L2_CTRL_TYPE_MENU) ∧
        ¬ (K.s_ctrl d c.fd
            { id := c.id,
              value := if (if v < q.minimum then q.minimum else v) > q.maximum then q.maximum
                       else (if v < q.minimum then q.minimum else v) }).1 < 0)) := by
  have key : (c.set H K v w).1 = true ↔
      (¬ rc < 0 ∧ q.flags &&& H.V4L2_CTRL_FLAG_DISABLED = 0 ∧
        (q.type = H.V4L2_CTRL_TYPE_BOOLEAN ∨ q.type = H.V4L2_CTRL_TYPE_INTEGER
          ∨ q.type = H.V4L2_CTRL_TYPE_MENU) ∧
        ¬ (K.s_ctrl d c.fd
            { id := c.id, value := shaped v q.minimum q.maximum }).1 < 0) := by
    by_cases hu : Unavailable H rc q
    · rw [set_eq_of_unavailable H K c v w rc q d hq hu]
      constructor
      · intro h; exact absurd h (by simp)
      · rintro ⟨h0, h1, h2, -⟩
        rcases hu with h | h | ⟨a, b, e⟩
        · exact absurd h h0
        · exact absurd h1 h
        · rcases h2 with t | t | t
          · exact absurd t a
          · exact absurd t b
          · exact absurd t e
    · rw [set_eq_of_available H K c v w rc q d hq hu]
      unfold Unavailable at hu
      push_neg at hu
      obtain ⟨h0, h1, h2⟩ := hu
      have h3 : q.type = H.V4L2_CTRL_TYPE_BOOLEAN ∨ q.type = H.V4L2_CTRL_TYPE_INTEGER
          ∨ q.type = H.V4L2_CTRL_TYPE_MENU := by
        by_cases a : q.type = H.V4L2_CTRL_TYPE_BOOLEAN
        · exact Or.inl a
        · by_cases b : q.type = H.V4L2_CTRL_TYPE_INTEGER
          · exact Or.inr (Or.inl b)
          · exact Or.inr (Or.inr (h2 a b))
      simp only [decide_eq_true_eq]
      constructor
      · intro h; exact ⟨not_lt.mpr h0, h1, h3, h⟩
      · intro h; exact h.2.2.2
  unfold shaped at key
  refine ⟨key, ?_⟩
  rw [← key]
  cases (c.set H K v w).1 <;> simp


/-- C5: get raises an error exactly when the control query fails, or the control is flagged
disabled, or its type is none of BOOLEAN, INTEGER, MENU, or the read of the current value fails;
otherwise it returns exactly the value the kernel reported for the control id. -/
theorem get_error_iff {σ : Type} (H : Videodev2) (K : Kernel σ)
    (c : DarwinCameraSetting)
    (w : World σ) (rc : Int) (q : v4l2_queryctrl) (d : σ)
    (rcGet : Int) (control_s : v4l2_control) (d2 : σ)
    (hq : K.queryctrl w.device c.fd c.id = (rc, q, d))
    (hg : K.g_ctrl d c.fd c.id = (rcGet, control_s, d2)) :
    ((∃ msg, (c.get H K w).1 = Except.error msg) ↔
      (rc < 0 ∨ q.flags &&& H.V4L2_CTRL_FLAG_DISABLED ≠ 0 ∨
        (q.type ≠ H.V4L2_CTRL_TYPE_BOOLEAN ∧ q.type ≠ H.V4L2_CTRL_TYPE_INTEGER
          ∧ q.type ≠ H.V4L2_CTRL_TYPE_MENU) ∨
        rcGet < 0)) ∧
    (¬ (rc < 0 ∨ q.flags &&& H.V4L2_CTRL_FLAG_DISABLED ≠ 0 ∨
        (q.type ≠ H.V4L2_CTRL_TYPE_BOOLEAN ∧ q.type ≠ H.V4L2_CTRL_TYPE_INTEGER
          ∧ q.type ≠ H.V4L2_CTRL_TYPE_MENU) ∨
        rcGet < 0) →
      (c.get H K w).1 = Except.ok control_s.value) := by
  by_cases hu : Unavailable H rc q
  · have he := (get_eq_of_unavailable H K c w rc q d hq hu).1
    have hc : rc < 0 ∨ q.flags &&& H.V4L2_CTRL_FLAG_DISABLED ≠ 0 ∨
        (q.type ≠ H.V4L2_CTRL_TYPE_BOOLEAN ∧ q.type ≠ H.V4L2_CTRL_TYPE_INTEGER
          ∧ q.type ≠ H.V4L2_CTRL_TYPE_MENU) ∨ rcGet < 0 := by
      rcases hu with h | h | h
      · exact Or.inl h
      · exact Or.inr (Or.inl h)
      · exact Or.inr (Or.inr (Or.inl h))
    exact ⟨⟨fun _ => hc, fun _ => he⟩, fun hn => absurd hc hn⟩
  · rw [get_eq_of_available H K c w rc q d hq hu, hg]
    have hiff : (rc < 0 ∨ q.flags &&& H.V4L2_CTRL_FLAG_DISABLED ≠ 0 ∨
        (q.type ≠ H.V4L2_CTRL_TYPE_BOOLEAN ∧ q.type ≠ H.V4L2_CTRL_TYPE_INTEGER
          ∧ q.type ≠ H.V4L2_CTRL_TYPE_MENU) ∨ rcGet < 0) ↔ rcGet < 0 := by
      constructor
      · rintro (h | h | h | h)
        · exact absurd (Or.inl h) hu
        · exact absurd (Or.inr (Or.inl h)) hu
        · exact absurd (Or.inr (Or.inr h)) hu
        · exact h
      · intro h; exact Or.inr (Or.inr (Or.inr h))
    rw [hiff]
    by_cases hs : rcGet < 0
    · simp [hs]
    · simp [hs]

/-- C8: if the control query fails, or the control is disabled, or its type is unsupported, set
returns false having issued the query and nothing else: no write request is in the trace, and
the device is in the state the query left it in, hence untouched whenever the query itself
leaves the device state alone. -/
theorem set_no_write_of_unavailable {σ : Type} (H : Videodev2) (K : Kernel σ)
    (c : DarwinCameraSetting)
    (v : Int) (w : World σ) (rc : Int) (q : v4l2_queryctrl) (d : σ)
    (hq : K.queryctrl w.device c.fd c.id = (rc, q, d))
    (hfail : rc < 0 ∨ q.flags &&& H.V4L2_CTRL_FLAG_DISABLED ≠ 0 ∨
      (q.type ≠ H.V4L2_CTRL_TYPE_BOOLEAN ∧ q.type ≠ H.V4L2_CTRL_TYPE_INTEGER
        ∧ q.type ≠ H.V4L2_CTRL_TYPE_MENU)) :
    (c.set H K v w).1 = false ∧
    (c.set H K v w).2.trace = w.trace ++ [Request.VIDIOC_QUERYCTRL c.fd c.id] ∧
    (∀ fd id x, Request.VIDIOC_S_CTRL fd id x ∈ (c.set H K v w).2.trace →
      Request.VIDIOC_S_CTRL fd id x ∈ w.trace) ∧
    (c.set H K v w).2.device = d ∧
    (d = w.device → (c.set H K v w).2.device = w.device) := by
  rw [set_eq_of_unavailable H K c v w rc q d hq hfail]
  refine ⟨rfl, rfl, ?_, rfl, fun h => h⟩
  intro fd id x hx
  simpa using hx

/-- C9: the shaping in set applies the lower bound first and the upper bound second and never
compares the two bounds: whenever set reaches the write step the value written is never greater
than maximum, and when the reported minimum exceeds the maximum every v < minimum is written as
maximum, which lies below the reported minimum. -/
theorem set_shapes_lower_then_upper {σ : Type} (H : Videodev2) (K : Kernel σ)
    (c : DarwinCameraSetting)
    (v : Int) (w : World σ) (rc : Int) (q : v4l2_queryctrl) (d : σ)
    (hq : K.queryctrl w.device c.fd c.id = (rc, q, d))
    (hrc : ¬ rc < 0) (hen : q.flags &&& H.V4L2_CTRL_FLAG_DISABLED = 0)
    (hty : q.type = H.V4L2_CTRL_TYPE_BOOLEAN ∨ q.type = H.V4L2_CTRL_TYPE_INTEGER
      ∨ q.type = H.V4L2_CTRL_TYPE_MENU) :
    ∃ written : Int,
      written = (if (if v < q.minimum then q.minimum else v) > q.maximum then q.maximum
                 else (if v < q.minimum then q.minimum else v)) ∧
      (c.set H K v w).2.trace
        = w.trace ++ [Request.VIDIOC_QUERYCTRL c.fd c.id,
            Request.VIDIOC_S_CTRL c.fd c.id written] ∧
      written ≤ q.maximum ∧
      (q.minimum > q.maximum → v < q.minimum →
        written = q.maximum ∧ written < q.minimum) := by
  have hok : ¬ Unavailable H rc q := by
    rintro (h | h | ⟨a, b, e⟩)
    · exact hrc h
    · exact h hen
    · rcases hty with t | t | t
      · exact a t
      · exact b t
      · exact e t
  refine ⟨shaped v q.minimum q.maximum, rfl, ?_, shaped_le_maximum _ _ _, ?_⟩
  · rw [set_eq_of_available H K c v w rc q d hq hok]
  · intro h1 h2
    unfold shaped
    split_ifs
    omega

/-- C10: get and set apply the same availability test: get raises an error having issued only
the query (before any read) exactly when set returns false having issued only the query (before
shaping and writing), and each happens exactly when the query fails, the control is disabled or
its type is unsupported. -/
theorem get_set_same_availability {σ : Type} (H : Videodev2) (K : Kernel σ)
    (c : DarwinCameraSetting)
    (v : Int) (w : World σ) (rc : Int) (q : v4l2_queryctrl) (d : σ)
    (hq : K.queryctrl w.device c.fd c.id = (rc, q, d)) :
    (((∃ msg, (c.get H K w).1 = Except.error msg) ∧
        (c.get H K w).2.trace = w.trace ++ [Request.VIDIOC_QUERYCTRL c.fd c.id]) ↔
      ((c.set H K v w).1 = false ∧
        (c.set H K v w).2.trace = w.trace ++ [Request.VIDIOC_QUERYCTRL c.fd c.id])) ∧
    (((c.set H K v w).1 = false ∧
        (c.set H K v w).2.trace = w.trace ++ [Request.VIDIOC_QUERYCTRL c.fd c.id]) ↔
      (rc < 0 ∨ q.flags &&& H.V4L2_CTRL_FLAG_DISABLED ≠ 0 ∨
        (q.type ≠ H.V4L2_CTRL_TYPE_BOOLEAN ∧ q.type ≠ H.V4L2_CTRL_TYPE_INTEGER
          ∧ q.type ≠ H.V4L2_CTRL_TYPE_MENU))) := by
  by_cases hu : Unavailable H rc q
  · have hg := get_eq_of_unavailable H K c w rc q d hq hu
    have hs := set_eq_of_unavailable H K c v w rc q d hq hu
    have hgt : (c.get H K w).2.trace = w.trace ++ [Request.VIDIOC_QUERYCTRL c.fd c.id] := by
      rw [hg.2]
    have hst : (c.set H K v w).1 = false ∧
        (c.set H K v w).2.trace = w.trace ++ [Request.VIDIOC_QUERYCTRL c.fd c.id] := by
      rw [hs]; exact ⟨rfl, rfl⟩
    exact ⟨⟨fun _ => hst, fun _ => ⟨hg.1, hgt⟩⟩, ⟨fun _ => hu, fun _ => hst⟩⟩
  · have hg := get_eq_of_available H K c w rc q d hq hu
    have hs := set_eq_of_available H K c v w rc q d hq hu
    have hgt : (c.get H K w).2.trace ≠ w.trace ++ [Request.VIDIOC_QUERYCTRL c.fd c.id] := by
      rw [hg]; exact trace_ne_of_append _ _ _
    have hst : (c.set H K v w).2.trace ≠ w.trace ++ [Request.VIDIOC_QUERYCTRL c.fd c.id] := by
      rw [hs]; exact trace_ne_of_append _ _ _
    exact ⟨⟨fun h => absurd h.2 hgt, fun h => absurd h.2 hst⟩,
      ⟨fun h => absurd h.2 hst, fun h => absurd h hu⟩⟩


/-- Instance of C3: a request of 300 on a control with range [0,255] is written as 255. -/
theorem set_clamps_before_write_witness :
    (DarwinCameraSetting.set linux (fixedCamera 0 ⟨9, 1, 0, 0, 255⟩ 0 0) ⟨3, 9⟩ 300
        ⟨7, []⟩).2.trace
      = [Request.VIDIOC_QUERYCTRL 3 9, Request.VIDIOC_S_CTRL 3 9 255] := by
  obtain ⟨written, hw, ht, -⟩ :=
    set_clamps_before_write linux (fixedCamera 0 ⟨9, 1, 0, 0, 255⟩ 0 0) ⟨3, 9⟩ 300 ⟨7, []⟩
      0 ⟨9, 1, 0, 0, 255⟩ 7 rfl (by decide) (by decide) (by decide) (by decide)
  rw [ht, hw]
  rfl

/-- Instance of C4: with a successful query of an enabled INTEGER control and a successful
write, set returns true. -/
theorem set_true_iff_witness :
    (DarwinCameraSetting.set linux (fixedCamera 0 ⟨9, 1, 0, 0, 255⟩ 0 0) ⟨3, 9⟩ 300
        ⟨7, []⟩).1 = true :=
  (set_true_iff linux (fixedCamera 0 ⟨9, 1, 0, 0, 255⟩ 0 0) ⟨3, 9⟩ 300 ⟨7, []⟩
      0 ⟨9, 1, 0, 0, 255⟩ 7 rfl).1.mpr
    ⟨by decide, by decide, by decide, by decide⟩

/-- Instance of C5: with a successful query of an enabled INTEGER control and a successful
read, get returns the current value 7 of the device. -/
theorem get_error_iff_witness :
    (DarwinCameraSetting.get linux (fixedCamera 0 ⟨9, 1, 0, 0, 255⟩ 0 0) ⟨3, 9⟩
        ⟨7, []⟩).1 = Except.ok 7 :=
  (get_error_iff linux (fixedCamera 0 ⟨9, 1, 0, 0, 255⟩ 0 0) ⟨3, 9⟩ ⟨7, []⟩
      0 ⟨9, 1, 0, 0, 255⟩ 7 0 ⟨9, 7⟩ 7 rfl rfl).2 (by decide)

/-- Instance of C8: on a disabled control set returns false, issues the query only and leaves
the device value 7 in place. -/
theorem set_no_write_of_unavailable_witness :
    (DarwinCameraSetting.set linux (fixedCamera 0 ⟨9, 1, 1, 0, 255⟩ 0 0) ⟨3, 9⟩ 300
        ⟨7, []⟩).1 = false ∧
    (DarwinCameraSetting.set linux (fixedCamera 0 ⟨9, 1, 1, 0, 255⟩ 0 0) ⟨3, 9⟩ 300
        ⟨7, []⟩).2.trace = [] ++ [Request.VIDIOC_QUERYCTRL 3 9] ∧
    (DarwinCameraSetting.set linux (fixedCamera 0 ⟨9, 1, 1, 0, 255⟩ 0 0) ⟨3, 9⟩ 300
        ⟨7, []⟩).2.device = 7 :=
  have h := set_no_write_of_unavailable linux (fixedCamera 0 ⟨9, 1, 1, 0, 255⟩ 0 0) ⟨3, 9⟩ 300
    ⟨7, []⟩ 0 ⟨9, 1, 1, 0, 255⟩ 7 rfl (Or.inr (Or.inl (by decide)))
  ⟨h.1, h.2.1, h.2.2.2.1⟩

/-- Instance of C9: on a control that reports the range minimum 10, maximum 5, a request of 2
is written as 5. -/
theorem set_shapes_lower_then_upper_witness :
    (DarwinCameraSetting.set linux (fixedCamera 0 ⟨9, 1, 0, 10, 5⟩ 0 0) ⟨3, 9⟩ 2
        ⟨7, []⟩).2.trace
      = [Request.VIDIOC_QUERYCTRL 3 9, Request.VIDIOC_S_CTRL 3 9 5] := by
  obtain ⟨written, -, ht, -, hinv⟩ :=
    set_shapes_lower_then_upper linux (fixedCamera 0 ⟨9, 1, 0, 10, 5⟩ 0 0) ⟨3, 9⟩ 2 ⟨7, []⟩
      0 ⟨9, 1, 0, 10, 5⟩ 7 rfl (by decide) (by decide) (by decide)
  rw [ht, (hinv (by decide) (by decide)).1]
  rfl

/-- Instance of C10: on a control of an unsupported type (4) set returns false after the query
alone, as get fails after the query alone. -/
theorem get_set_same_availability_witness :
    (DarwinCameraSetting.set linux (fixedCamera 0 ⟨9, 4, 0, 0, 255⟩ 0 0) ⟨3, 9⟩ 300
        ⟨7, []⟩).1 = false ∧
    (DarwinCameraSetting.set linux (fixedCamera 0 ⟨9, 4, 0, 0, 255⟩ 0 0) ⟨3, 9⟩ 300
        ⟨7, []⟩).2.trace = [] ++ [Request.VIDIOC_QUERYCTRL 3 9] :=
  (get_set_same_availability linux (fixedCamera 0 ⟨9, 4, 0, 0, 255⟩ 0 0) ⟨3, 9⟩ 300 ⟨7, []⟩
      0 ⟨9, 4, 0, 0, 255⟩ 7 rfl).2.mpr (Or.inr (Or.inr (by decide)))

end modules
